import Mathlib

/-!
Verification development for the `ipc` library (UncleRus/ipc): a Python
library for interprocess communication over standard streams.

The embedding models the library's own logic faithfully:

* `JVal` is the abstract syntax of JSON values produced by the Python `json`
  standard-library codec (floats are outside the scope of the claims and are
  not modelled; numbers are `Int`).
* The stdlib codec itself (`json.dumps` / `json.loads`) is an external
  collaborator of this repository.  A wire line is therefore modelled as
  `Line`: either a line that the codec parses into a `JVal`, or raw text the
  codec rejects with `ValueError` (the empty line is such text).  On top of
  that abstraction, the repository's own framing (`Message.dumps`,
  `Message.parse`) is translated statement by statement from `src/ipc.py`.
* Python `dict` equality ignores insertion order, recursively.  `pyEq`
  implements it by comparing key-sorted canonical forms (`canon`);
  cross-type numeric equalities of Python (`1 == True`) are not modelled,
  no claim exercises them.
* `Process` (the child-process Controller) is modelled as a state record;
  each public operation (`start`, `stop`, `terminate`, `kill`, `reset`,
  `read`, `write`, `process_messages`) is a state transformer translated
  from `src/ipc.py`.  Background-thread joins are collapsed to their
  quiescent post-state: `thread.join()` waits for `run()` to finish, and
  `run()` terminates the child if it is still alive and clears `running`
  and `thread` before returning.
* A Python exception escaping to the caller is an `Except.error` carrying a
  `PyErr` naming the exception class.
-/

namespace IPC

/-- Abstract syntax of JSON values (Python `json` module output; `dict`s are
insertion-ordered association lists, numbers restricted to integers). -/
inductive JVal where
  | null
  | bool (b : Bool)
  | num (n : Int)
  | str (s : String)
  | arr (elems : List JVal)
  | obj (fields : List (String × JVal))

/-- Python `dict` lookup `d[k]`.  The association-list representation may in
principle carry duplicate keys (only via `json.loads` of a line with repeated
keys); Python keeps the last binding, so the last occurrence wins. -/
def dictLookup : List (String × JVal) → String → Option JVal
  | [], _ => none
  | (k, v) :: rest, key =>
    match dictLookup rest key with
    | some r => some r
    | none => if k = key then some v else none

/-- Insert a field into a key-sorted field list (insertion sort step). -/
def insertField (kv : String × JVal) : List (String × JVal) → List (String × JVal)
  | [] => [kv]
  | x :: xs => if x.1 < kv.1 then x :: insertField kv xs else kv :: x :: xs

/-- Sort a field list by key (insertion sort). -/
def sortFields : List (String × JVal) → List (String × JVal)
  | [] => []
  | kv :: rest => insertField kv (sortFields rest)

mutual

/-- Canonical form of a JSON value: object fields recursively sorted by key.
Two duplicate-key-free values are Python-`==` iff their canonical forms are
structurally equal. -/
def canon : JVal → JVal
  | .null => .null
  | .bool b => .bool b
  | .num n => .num n
  | .str s => .str s
  | .arr xs => .arr (canonList xs)
  | .obj fs => .obj (sortFields (canonFields fs))

/-- Canonical form, mapped over an array's elements. -/
def canonList : List JVal → List JVal
  | [] => []
  | x :: xs => canon x :: canonList xs

/-- Canonical form, mapped over an object's field values. -/
def canonFields : List (String × JVal) → List (String × JVal)
  | [] => []
  | (k, v) :: fs => (k, canon v) :: canonFields fs

end

mutual

/-- Structural boolean equality on JSON values. -/
def jvalBEq : JVal → JVal → Bool
  | .null, .null => true
  | .bool a, .bool b => a == b
  | .num a, .num b => a == b
  | .str a, .str b => a == b
  | .arr xs, .arr ys => jlistBEq xs ys
  | .obj fs, .obj gs => jfieldsBEq fs gs
  | _, _ => false

/-- Structural boolean equality on JSON arrays. -/
def jlistBEq : List JVal → List JVal → Bool
  | [], [] => true
  | x :: xs, y :: ys => jvalBEq x y && jlistBEq xs ys
  | _, _ => false

/-- Structural boolean equality on JSON object field lists. -/
def jfieldsBEq : List (String × JVal) → List (String × JVal) → Bool
  | [], [] => true
  | (k, v) :: fs, (l, w) :: gs => k == l && jvalBEq v w && jfieldsBEq fs gs
  | _, _ => false

end

/-- Python `==` on JSON values: structural equality up to object key order. -/
def pyEq (a b : JVal) : Bool := jvalBEq (canon a) (canon b)

/-- Python `dict.__eq__` on two argument mappings. -/
def dictEqPy (d1 d2 : List (String × JVal)) : Bool := pyEq (.obj d1) (.obj d2)

/-- Python exception classes that the modelled code can raise. -/
inductive PyErr where
  | valueError
  | keyError (key : String)
  | typeError
  | runtimeError (msg : String)
  | attributeError (attrName : String)

/-- Message (src/ipc.py, class Message): `name`, optional `channel` tag,
and the keyword-argument mapping `args` (an `AttrDict`, i.e. a plain dict
with attribute access; modelled as an association list). -/
structure Message where
  name : String
  channel : Option String := none
  args : List (String × JVal) := []

/-- Message.dumps (src/ipc.py line 78): the JSON value
`{'name': self.name, 'args': self.args}` handed to `json.dumps`. -/
def Message.dumps (m : Message) : JVal :=
  .obj [("name", .str m.name), ("args", .obj m.args)]

/-- A wire line, abstracting the external `json` codec: either a line the
codec parses into the JSON value `v`, or raw text the codec rejects with
`ValueError`.  The empty line `Line.text ""` is rejected text. -/
inductive Line where
  | json (v : JVal)
  | text (raw : String)

/-- Encoding side of the line protocol: `Message.write` emits
`self.dumps()` plus a newline, i.e. a line that the peer's codec parses
back into exactly the `Message.dumps` JSON value. -/
def Message.encodeLine (m : Message) : Line := .json m.dumps

/-- Parameter names of `Message.__init__(self, name, channel=None, **kwargs)`.
A decoded `args` object containing one of these keys makes the call
`cls(data['name'], channel, **data['args'])` raise
`TypeError: got multiple values for argument ...`. -/
def reservedKeys : List String := ["self", "name", "channel"]

/-- Whether expanding `fields` as `**kwargs` into `Message.__init__` with
`name` and `channel` already bound collides with a named parameter. -/
def kwargsCollision (fields : List (String × JVal)) : Bool :=
  fields.any (fun kv => reservedKeys.contains kv.1)

/-- Message.parse (src/ipc.py lines 91-100), one decode step:

```
try:
    data = json.loads(line)
except ValueError:
    if line:
        return cls('jsonerr', channel, msg=line)
    raise
else:
    return cls(data['name'], channel, **data['args'])
```

The `Line.json` branch is the `else:` arm: `data['name']` on a non-dict top
level raises `TypeError`, a missing key raises `KeyError`, `**data['args']`
on a non-dict raises `TypeError`, and a reserved key in `args` makes the
constructor call raise `TypeError` (multiple values for an argument).
One model restriction: `Message.name` is a `String`, so a present but
non-string `"name"` value is mapped to `TypeError`; Python would build a
message with a non-string name there.  That case is checked last, so every
Python-reachable error is reported identically. -/
def Message.parse (line : Line) (channel : Option String) : Except PyErr Message :=
  match line with
  | .text raw =>
    if raw = "" then .error .valueError
    else .ok { name := "jsonerr", channel := channel, args := [("msg", .str raw)] }
  | .json data =>
    match data with
    | .obj fields =>
      match dictLookup fields "name" with
      | none => .error (.keyError "name")
      | some nameVal =>
        match dictLookup fields "args" with
        | none => .error (.keyError "args")
        | some argsVal =>
          match argsVal with
          | .obj argFields =>
            if kwargsCollision argFields then .error .typeError
            else
              match nameVal with
              | .str n => .ok { name := n, channel := channel, args := argFields }
              | _ => .error .typeError
          | _ => .error .typeError
    | _ => .error .typeError

/-- Message.__eq__ (src/ipc.py line 85):
`self.name == other.name and self.args == other.args` — the channel field
does not participate. -/
def Message.beq (a b : Message) : Bool :=
  a.name == b.name && dictEqPy a.args b.args

/-- The OS child process handle (`subprocess.Popen` object): `alive` is true
while `poll()` returns `None` (no exit status observed yet). -/
structure ChildProc where
  alive : Bool

/-- Process state (src/ipc.py, class Process `__init__`): command-line
arguments, the two queues (`output` inbound from the child, `input` outbound
to the child, modelled front-first), the supervising thread handle
(`thread = true` iff `self.thread` is not `None`), the `running` flag and
the optional child process handle. -/
structure ProcState where
  args : List String
  output : List Message
  input : List Message
  thread : Bool
  running : Bool
  proc : Option ChildProc

/-- Process.__init__: empty queues, no thread, not running, no process. -/
def Process.init (argv : List String) : ProcState :=
  { args := argv, output := [], input := [], thread := false,
    running := false, proc := none }

/-- Process.is_alive: `self.proc and self.proc.poll() is None`. -/
def Process.isAlive (s : ProcState) : Bool :=
  match s.proc with
  | none => false
  | some p => p.alive

/-- Process.start (src/ipc.py lines 117-124): raise
`RuntimeError('Already started')` if a supervising thread exists (the raise
happens before any mutation, so the state component is returned unchanged);
otherwise spawn the child with piped streams, set `running` and launch the
supervising thread. -/
def Process.start (s : ProcState) : Except PyErr Unit × ProcState :=
  if s.thread then (.error (.runtimeError "Already started"), s)
  else (.ok (), { s with proc := some { alive := true }, running := true, thread := true })

/-- Process.stop (src/ipc.py lines 126-130): return immediately if no
supervising thread exists; otherwise clear `running` and join the thread.
The join is collapsed to `run()`'s quiescent post-state: on loop exit
`run()` terminates the child if it is still alive (`self.proc.terminate()`),
clears `running` and sets `thread` to `None`. -/
def Process.stop (s : ProcState) : ProcState :=
  if s.thread = false then s
  else { s with running := false, thread := false,
                proc := s.proc.map (fun p => { p with alive := false }) }

/-- Process.terminate (src/ipc.py lines 140-149): return immediately if the
child is not alive; otherwise signal the child (SIGTERM, best effort), clear
`running` and join the supervising thread if one exists (post-join the
thread slot is `None` and the child's exit has been observed). -/
def Process.terminate (s : ProcState) : ProcState :=
  if Process.isAlive s = false then s
  else { s with running := false, thread := false,
                proc := s.proc.map (fun p => { p with alive := false }) }

/-- Process.kill (src/ipc.py lines 151-160): same shape as `terminate` but
with the forceful signal (SIGKILL). -/
def Process.kill (s : ProcState) : ProcState :=
  if Process.isAlive s = false then s
  else { s with running := false, thread := false,
                proc := s.proc.map (fun p => { p with alive := false }) }

/-- Process.reset (src/ipc.py lines 132-138): stop if alive, kill as an
idempotent safety net, replace both queues with fresh empty ones, start. -/
def Process.reset (s : ProcState) : Except PyErr Unit × ProcState :=
  let s1 := if Process.isAlive s then Process.stop s else s
  let s2 := Process.kill s1
  let s3 := { s2 with input := [], output := [] }
  Process.start s3

/-- Queue.put on the modelled FIFO: append at the back. -/
def Queue.put (q : List Message) (m : Message) : List Message := q ++ [m]

/-- Queue.get_nowait on the modelled FIFO: take the front element, or
report `Empty` (modelled as `none`) without blocking. -/
def Queue.getNowait : List Message → Option Message × List Message
  | [] => (none, [])
  | m :: rest => (some m, rest)

/-- Process.read (src/ipc.py lines 162-166):
`self.output.get_nowait()`, returning `None` when the queue is empty. -/
def Process.read (s : ProcState) : Option Message × ProcState :=
  match Queue.getNowait s.output with
  | (r, q) => (r, { s with output := q })

/-- Process.write (src/ipc.py lines 168-169): enqueue the message (or a
`Message` built from `name` and keyword arguments, already constructed
here) onto the outbound `input` queue. -/
def Process.write (s : ProcState) (m : Message) : ProcState :=
  { s with input := Queue.put s.input m }

/-- A handler method `on_msg_<name>` on a Process subclass; `channelAttr`
records whether the function object carries a `channel` attribute
(`hasattr(method, 'channel')`). -/
structure Handler where
  channelAttr : Bool

/-- The `channel` decorator (src/ipc.py lines 62-68): wraps the function and
sets `wrapped.channel = True`. -/
def channel (h : Handler) : Handler := { h with channelAttr := true }

/-- Method lookup `getattr(self, 'on_msg_' + name)` over the consumer's
handler table; `none` models the `AttributeError` case (no such method). -/
def findHandler : List (String × Handler) → String → Option Handler
  | [], _ => none
  | (n, h) :: rest, nm => if n = nm then some h else findHandler rest nm

/-- Record of one handler invocation: the method name and the arguments it
was called with.  `channelArg = some c` iff the method was invoked as
`method(channel=msg.channel, **msg.args)`; otherwise `method(**msg.args)`. -/
structure Call where
  methodName : String
  channelArg : Option (Option String)
  kwargs : List (String × JVal)

/-- One dispatch step of Process.process_messages (src/ipc.py lines
196-201): resolve `on_msg_<name>` (an unresolvable name raises
`AttributeError`, uncaught) and invoke it with the channel iff the handler
carries the `channel` attribute. -/
def dispatchOne (handlers : List (String × Handler)) (m : Message) : Except PyErr Call :=
  match findHandler handlers m.name with
  | none => .error (.attributeError ("on_msg_" ++ m.name))
  | some h =>
    .ok { methodName := "on_msg_" ++ m.name,
          channelArg := if h.channelAttr then some m.channel else none,
          kwargs := m.args }

/-- Process.process_messages (src/ipc.py lines 191-201): repeatedly `read()`
from the inbound queue until it yields `None`, dispatching each dequeued
message; the list argument is the inbound queue's contents, the result the
sequence of handler invocations, or the first uncaught dispatch error. -/
def process_messages (handlers : List (String × Handler)) :
    List Message → Except PyErr (List Call)
  | [] => .ok []
  | m :: rest => do
    let c ← dispatchOne handlers m
    let cs ← process_messages handlers rest
    pure (c :: cs)

/-- Whether a dispatch run ended in the unknown-message condition (an
uncaught `AttributeError` from the `on_msg_<name>` lookup). -/
def isUnknownErr : Except PyErr (List Call) → Bool
  | .error (.attributeError _) => true
  | _ => false

/-- Lookup/type errors (`KeyError` / `TypeError`), as opposed to the
`ValueError` that triggers the `jsonerr` fallback. -/
def isLookupOrTypeErr : PyErr → Bool
  | .keyError _ => true
  | .typeError => true
  | _ => false

/-- Whether a decode attempt raised a lookup/type error to the caller. -/
def raisesLookupOrTypeErr : Except PyErr Message → Bool
  | .error e => isLookupOrTypeErr e
  | .ok _ => false

/-- Whether a JSON value is an object. -/
def JVal.isObj : JVal → Bool
  | .obj _ => true
  | _ => false

/-- Field list of a JSON object (empty for non-objects). -/
def JVal.fieldsOf : JVal → List (String × JVal)
  | .obj fs => fs
  | _ => []

mutual

theorem jvalBEq_refl : ∀ v : JVal, jvalBEq v v = true
  | .null => rfl
  | .bool b => by simp [jvalBEq]
  | .num n => by simp [jvalBEq]
  | .str s => by simp [jvalBEq]
  | .arr xs => by simp [jvalBEq, jlistBEq_refl xs]
  | .obj fs => by simp [jvalBEq, jfieldsBEq_refl fs]

theorem jlistBEq_refl : ∀ xs : List JVal, jlistBEq xs xs = true
  | [] => rfl
  | x :: xs => by simp [jlistBEq, jvalBEq_refl x, jlistBEq_refl xs]

theorem jfieldsBEq_refl : ∀ fs : List (String × JVal), jfieldsBEq fs fs = true
  | [] => rfl
  | (k, v) :: fs => by simp [jfieldsBEq, jvalBEq_refl v, jfieldsBEq_refl fs]

end

theorem pyEq_refl (v : JVal) : pyEq v v = true := jvalBEq_refl (canon v)

theorem dictEqPy_refl (d : List (String × JVal)) : dictEqPy d d = true :=
  pyEq_refl (.obj d)

/-- C1: for every Message `m` whose `args` mapping contains only
JSON-serializable values (every modelled `args` list is such, and — since
`Message.__init__` cannot bind a keyword argument named `self`, `name` or
`channel` — carries no reserved key), decoding the encoded line with any
channel `c` yields exactly `Message(m.name, c, m.args)`, which is equal to
`m` under the structural equality that compares `name` and `args` only. -/
theorem c1_roundtrip (m : Message) (c : Option String)
    (h : kwargsCollision m.args = false) :
    Message.parse (Message.encodeLine m) c =
      .ok { name := m.name, channel := c, args := m.args } ∧
    Message.beq { name := m.name, channel := c, args := m.args } m = true := by
  constructor
  · simp [Message.encodeLine, Message.dumps, Message.parse, dictLookup, h]
  · simp [Message.beq, dictEqPy_refl]

/-- Witness for C1 at a concrete message and channel. -/
theorem c1_roundtrip_witness :
    Message.parse
        (Message.encodeLine
          { name := "ping", channel := none, args := [("msg", JVal.str "hi")] })
        (some "out") =
      .ok { name := "ping", channel := some "out", args := [("msg", JVal.str "hi")] } :=
  (c1_roundtrip { name := "ping", channel := none, args := [("msg", JVal.str "hi")] }
    (some "out") (by decide)).1

/-- C2 counterexample: the raw line handed to the `jsonerr` fallback keeps
its trailing newline, so `decode("not json\n", c)` carries
`args.msg == "not json\n"`, not `"not json"` as the claim's parenthetical
instance states. -/
theorem c2_counterexample :
    (Message.parse (Line.text "not json\n") (some "in")).map
        (fun m => dictLookup m.args "msg") =
      .ok (some (JVal.str "not json\n")) ∧
    JVal.str "not json\n" ≠ JVal.str "not json" := by
  refine ⟨rfl, fun hcontra => ?_⟩
  have hs : ("not json\n" : String) = "not json" := by injection hcontra
  exact absurd hs (by decide)

/-- C2 (amended): decoding a line that fails JSON parsing yields, when the
line is non-empty, a `jsonerr` Message whose `args.msg` is the raw line
verbatim (including any trailing newline); when the line is empty, the
`ValueError` is re-raised to the caller instead of producing a `jsonerr`
Message. -/
theorem c2_jsonerr (raw : String) (c : Option String) (h : raw ≠ "") :
    Message.parse (Line.text raw) c =
      .ok { name := "jsonerr", channel := c, args := [("msg", JVal.str raw)] } ∧
    Message.parse (Line.text "") c = .error PyErr.valueError := by
  constructor
  · simp [Message.parse, h]
  · rfl

/-- Witness for C2's amended theorem at the spec's concrete line. -/
theorem c2_jsonerr_witness :
    Message.parse (Line.text "not json\n") (some "in") =
      .ok { name := "jsonerr", channel := some "in",
            args := [("msg", JVal.str "not json\n")] } :=
  (c2_jsonerr "not json\n" (some "in") (by decide)).1

/-- C7: `m1 == m2` holds iff the names agree and the argument mappings are
equal as Python dicts; the channel field never influences equality, and two
Messages with equal name and args but arbitrary (possibly different)
channels are equal. -/
theorem c7_structural_equality (m1 m2 : Message) :
    (Message.beq m1 m2 = true ↔ (m1.name = m2.name ∧ dictEqPy m1.args m2.args = true)) ∧
    (∀ c1 c2 : Option String,
      Message.beq { m1 with channel := c1 } { m2 with channel := c2 } =
        Message.beq m1 m2) ∧
    (m1.name = m2.name → m1.args = m2.args → Message.beq m1 m2 = true) := by
  refine ⟨?_, fun c1 c2 => rfl, fun h1 h2 => ?_⟩
  · simp [Message.beq]
  · simp [Message.beq, h1, h2, dictEqPy_refl]

/-- Witness for C7: two concrete Messages with equal name and args but
different channels are equal. -/
theorem c7_structural_equality_witness :
    Message.beq { name := "a", channel := some "out", args := [("k", JVal.num 1)] }
      { name := "a", channel := some "err", args := [("k", JVal.num 1)] } = true :=
  (c7_structural_equality
    { name := "a", channel := some "out", args := [("k", JVal.num 1)] }
    { name := "a", channel := some "err", args := [("k", JVal.num 1)] }).2.2 rfl rfl

theorem dispatchOne_error_shape (handlers : List (String × Handler)) (m : Message)
    (e : PyErr) (h : dispatchOne handlers m = .error e) :
    e = .attributeError ("on_msg_" ++ m.name) := by
  unfold dispatchOne at h
  cases hf : findHandler handlers m.name <;> rw [hf] at h <;> simp_all

/-- C3: if the dequeued messages contain one whose name resolves to no
`on_msg_<name>` handler, the dispatch run fails with the unknown-message
condition (an uncaught `AttributeError`), observable to the consumer rather
than silently ignored. -/
theorem c3_unknown_message (handlers : List (String × Handler))
    (queue : List Message) (m : Message)
    (hm : m ∈ queue) (hh : findHandler handlers m.name = none) :
    isUnknownErr (process_messages handlers queue) = true := by
  induction queue with
  | nil => cases hm
  | cons x rest ih =>
    rcases List.mem_cons.mp hm with hx | hmem
    · subst hx
      simp only [process_messages, dispatchOne, hh]
      rfl
    · cases hdx : dispatchOne handlers x with
      | error e =>
        have he := dispatchOne_error_shape handlers x e hdx
        subst he
        simp only [process_messages, hdx]
        rfl
      | ok call =>
        have htail := ih hmem
        cases hrest : process_messages handlers rest with
        | error e =>
          rw [hrest] at htail
          have he : ∃ nm, e = PyErr.attributeError nm := by
            cases e <;> simp_all [isUnknownErr]
          obtain ⟨nm, rfl⟩ := he
          simp only [process_messages, hdx, hrest]
          rfl
        | ok cs => rw [hrest] at htail; simp [isUnknownErr] at htail

/-- Witness for C3: a message named `foo` with no registered handler makes
the dispatch run fail with the unknown-message condition. -/
theorem c3_unknown_message_witness :
    isUnknownErr (process_messages [] [{ name := "foo", channel := none, args := [] }]) =
      true :=
  c3_unknown_message [] [{ name := "foo", channel := none, args := [] }]
    { name := "foo", channel := none, args := [] } (by simp) rfl

/-- C4: calling `start()` while a supervising thread exists raises
`RuntimeError('Already started')` and returns the state unchanged (the
raise precedes every mutation); `start()` on a freshly constructed
Controller does not raise. -/
theorem c4_double_start (s : ProcState) (argv : List String) :
    (s.thread = true → Process.start s = (.error (.runtimeError "Already started"), s)) ∧
    (Process.start (Process.init argv)).1 = .ok () := by
  exact ⟨fun h => by simp [Process.start, h], rfl⟩

/-- Witness for C4 at a concrete started state and a concrete argv. -/
theorem c4_double_start_witness :
    Process.start { args := ["prog"], output := [], input := [], thread := true,
                    running := true, proc := some { alive := true } } =
      (.error (.runtimeError "Already started"),
       { args := ["prog"], output := [], input := [], thread := true,
         running := true, proc := some { alive := true } }) :=
  (c4_double_start { args := ["prog"], output := [], input := [], thread := true,
                     running := true, proc := some { alive := true } } []).1 rfl

/-- Quiescence between public operations: if the supervising thread exists
then the child it supervises is still alive (otherwise `run()`'s loop has
exited, terminated the child and cleared `thread` before going quiet). -/
def Quiescent (s : ProcState) : Prop :=
  s.thread = true → Process.isAlive s = true

/-- C5: from any quiescent state, `reset()` completes without raising,
leaves both the inbound and the outbound queue empty, and the freshly
started child process is alive. -/
theorem c5_reset (s : ProcState) (h : Quiescent s) :
    (Process.reset s).1 = .ok () ∧
    (Process.reset s).2.input = [] ∧
    (Process.reset s).2.output = [] ∧
    Process.isAlive (Process.reset s).2 = true := by
  obtain ⟨a, o, i, t, r, p⟩ := s
  cases t with
  | false =>
    cases p with
    | none =>
      simp [Process.reset, Process.stop, Process.kill, Process.start, Process.isAlive]
    | some cp =>
      obtain ⟨al⟩ := cp
      cases al <;>
        simp [Process.reset, Process.stop, Process.kill, Process.start, Process.isAlive]
  | true =>
    have halive := h rfl
    cases p with
    | none => simp [Process.isAlive] at halive
    | some cp =>
      obtain ⟨al⟩ := cp
      cases al with
      | false => simp [Process.isAlive] at halive
      | true =>
        simp [Process.reset, Process.stop, Process.kill, Process.start, Process.isAlive]

/-- Witness for C5 at the freshly constructed (hence quiescent) state. -/
theorem c5_reset_witness :
    (Process.reset (Process.init ["prog"])).1 = .ok () ∧
    (Process.reset (Process.init ["prog"])).2.input = [] ∧
    (Process.reset (Process.init ["prog"])).2.output = [] ∧
    Process.isAlive (Process.reset (Process.init ["prog"])).2 = true :=
  c5_reset (Process.init ["prog"]) (fun hthread => absurd hthread (by decide))

/-- C6: writing `A, B, C` appends them to the outbound queue in that order;
draining an inbound queue holding `A, B, C` via `read()` yields exactly
`A`, `B`, `C` and then no message; and `read()` on an empty inbound queue
returns no message immediately, leaving the state unchanged. -/
theorem c6_fifo (s : ProcState) (A B C : Message) (h : s.output = []) :
    (Process.write (Process.write (Process.write s A) B) C).input =
      s.input ++ [A, B, C] ∧
    ((Process.read { s with output := Queue.put (Queue.put (Queue.put s.output A) B) C }).1 =
        some A ∧
      (Process.read
        (Process.read
          { s with output := Queue.put (Queue.put (Queue.put s.output A) B) C }).2).1 =
        some B ∧
      (Process.read (Process.read
        (Process.read
          { s with output := Queue.put (Queue.put (Queue.put s.output A) B) C }).2).2).1 =
        some C ∧
      (Process.read (Process.read (Process.read
        (Process.read
          { s with output := Queue.put (Queue.put (Queue.put s.output A) B) C }).2).2).2).1 =
        none) ∧
    (Process.read s).1 = none ∧ (Process.read s).2 = s := by
  have hs : ({ s with output := [] } : ProcState) = s := by rw [← h]
  refine ⟨?_, ⟨?_, ?_, ?_, ?_⟩, ?_, ?_⟩ <;>
    simp [Process.write, Process.read, Queue.put, Queue.getNowait, h, hs]

/-- Witness for C6 at a concrete empty-inbound-queue state and three
concrete messages. -/
theorem c6_fifo_witness :
    (Process.write (Process.write (Process.write (Process.init ["prog"])
        { name := "a" }) { name := "b" }) { name := "c" }).input =
      (Process.init ["prog"]).input ++ [{ name := "a" }, { name := "b" }, { name := "c" }] ∧
    (Process.read (Process.init ["prog"])).1 = none :=
  ⟨(c6_fifo (Process.init ["prog"]) { name := "a" } { name := "b" } { name := "c" } rfl).1,
   (c6_fifo (Process.init ["prog"]) { name := "a" } { name := "b" } { name := "c" } rfl).2.2.1⟩

/-- C8: a dispatched message whose resolved handler carries the `channel`
marker is invoked with the message's channel plus its arguments as named
arguments, and one whose handler lacks the marker is invoked with just the
arguments; the `channel` decorator is what sets the marker. -/
theorem c8_channel_dispatch (handlers : List (String × Handler)) (m : Message)
    (h : Handler) (hf : findHandler handlers m.name = some h) :
    dispatchOne handlers m =
      .ok { methodName := "on_msg_" ++ m.name,
            channelArg := if h.channelAttr then some m.channel else none,
            kwargs := m.args } ∧
    ∀ h0 : Handler, (channel h0).channelAttr = true := by
  exact ⟨by simp [dispatchOne, hf], fun h0 => rfl⟩

/-- Witness for C8: a channel-decorated handler receives the channel, a
plain one does not. -/
theorem c8_channel_dispatch_witness :
    dispatchOne [("ping", channel { channelAttr := false })]
        { name := "ping", channel := some "out", args := [("k", JVal.null)] } =
      .ok { methodName := "on_msg_ping", channelArg := some (some "out"),
            kwargs := [("k", JVal.null)] } ∧
    dispatchOne [("pong", { channelAttr := false })]
        { name := "pong", channel := some "out", args := [] } =
      .ok { methodName := "on_msg_pong", channelArg := none, kwargs := [] } := by
  constructor
  · have hc := (c8_channel_dispatch [("ping", channel { channelAttr := false })]
      { name := "ping", channel := some "out", args := [("k", JVal.null)] }
      (channel { channelAttr := false }) rfl).1
    simpa [channel] using hc
  · have hp := (c8_channel_dispatch [("pong", { channelAttr := false })]
      { name := "pong", channel := some "out", args := [] }
      { channelAttr := false } rfl).1
    simpa using hp

/-- C9: `stop()` on a Controller with no supervising thread (in particular
one that was never started) is a no-op returning the state unchanged, and
`terminate()` and `kill()` on a Controller whose child is not alive are
no-ops returning the state unchanged. -/
theorem c9_lifecycle_noops (s : ProcState) :
    (s.thread = false → Process.stop s = s) ∧
    (Process.isAlive s = false → Process.terminate s = s ∧ Process.kill s = s) := by
  refine ⟨fun h => ?_, fun h => ⟨?_, ?_⟩⟩ <;>
    simp [Process.stop, Process.terminate, Process.kill, h]

/-- Witness for C9 at the freshly constructed (never started) state. -/
theorem c9_lifecycle_noops_witness :
    Process.stop (Process.init ["prog"]) = Process.init ["prog"] ∧
    Process.terminate (Process.init ["prog"]) = Process.init ["prog"] ∧
    Process.kill (Process.init ["prog"]) = Process.init ["prog"] :=
  ⟨(c9_lifecycle_noops (Process.init ["prog"])).1 rfl,
   ((c9_lifecycle_noops (Process.init ["prog"])).2 rfl).1,
   ((c9_lifecycle_noops (Process.init ["prog"])).2 rfl).2⟩

/-- C10: a line that parses as JSON but whose top-level value is not an
object, or that lacks a `"name"` key or an `"args"` key, makes decode raise
a lookup/type error (`KeyError` / `TypeError`) to the caller instead of
returning a `jsonerr` Message; the `jsonerr` fallback fires only on JSON
syntax failures (`ValueError`). -/
theorem c10_strict_decode (v : JVal) (c : Option String)
    (h : v.isObj = false ∨ dictLookup v.fieldsOf "name" = none ∨
         dictLookup v.fieldsOf "args" = none) :
    raisesLookupOrTypeErr (Message.parse (Line.json v) c) = true := by
  cases v with
  | obj fields =>
    rcases h with h | h | h
    · simp [JVal.isObj] at h
    · simp [Message.parse, JVal.fieldsOf] at h ⊢
      simp [h, raisesLookupOrTypeErr, isLookupOrTypeErr]
    · simp [JVal.fieldsOf] at h
      cases hn : dictLookup fields "name" with
      | none => simp [Message.parse, hn, raisesLookupOrTypeErr, isLookupOrTypeErr]
      | some nv => simp [Message.parse, hn, h, raisesLookupOrTypeErr, isLookupOrTypeErr]
  | null => simp [Message.parse, raisesLookupOrTypeErr, isLookupOrTypeErr]
  | bool b => simp [Message.parse, raisesLookupOrTypeErr, isLookupOrTypeErr]
  | num n => simp [Message.parse, raisesLookupOrTypeErr, isLookupOrTypeErr]
  | str s => simp [Message.parse, raisesLookupOrTypeErr, isLookupOrTypeErr]
  | arr xs => simp [Message.parse, raisesLookupOrTypeErr, isLookupOrTypeErr]

/-- Witness for C10 at the concrete valid-JSON non-object line `5`. -/
theorem c10_strict_decode_witness :
    raisesLookupOrTypeErr (Message.parse (Line.json (JVal.num 5)) (some "in")) = true :=
  c10_strict_decode (JVal.num 5) (some "in") (Or.inl rfl)

end IPC
